import Mathlib

/-!
Verification of the customer-segmentation engine's orchestration core:
promotion policy, drift thresholds, retraining decision, pipeline state
persistence, snapshot schema gate, kill switches, prediction validation
and fingerprint helpers, shallowly embedded from the Python source.
-/

set_option maxRecDepth 4000

/-! ## Python float values

The promotion code manipulates IEEE special values explicitly
(`float('inf')` defaults, divisions that can produce `inf`/`nan`), so
metric values are modelled as exact rationals extended with the three
special values.  Comparisons follow Python semantics: every comparison
involving `nan` is false. -/

inductive PyF where
  | fin (q : ℚ)
  | inf
  | ninf
  | nan
  deriving DecidableEq, Repr

namespace PyF

/-- Python `<` on floats: `nan` is incomparable with everything. -/
def lt : PyF → PyF → Bool
  | nan, _ => false
  | _, nan => false
  | fin a, fin b => a < b
  | fin _, inf => true
  | fin _, ninf => false
  | inf, inf => false
  | inf, fin _ => false
  | inf, ninf => false
  | ninf, ninf => false
  | ninf, _ => true

/-- Python `<=` on floats. -/
def le : PyF → PyF → Bool
  | nan, _ => false
  | _, nan => false
  | fin a, fin b => a ≤ b
  | fin _, inf => true
  | fin _, ninf => false
  | inf, inf => true
  | inf, fin _ => false
  | inf, ninf => false
  | ninf, _ => true

/-- Python float subtraction, with `inf - inf = nan` etc. -/
def sub : PyF → PyF → PyF
  | nan, _ => nan
  | _, nan => nan
  | fin a, fin b => fin (a - b)
  | fin _, inf => ninf
  | fin _, ninf => inf
  | inf, fin _ => inf
  | inf, inf => nan
  | inf, ninf => inf
  | ninf, fin _ => ninf
  | ninf, inf => ninf
  | ninf, ninf => nan

/-- Python float division.  Division of finite values by `0` raises
`ZeroDivisionError` in Python; it is mapped to `nan` here and is
unreachable in the embedded code, which always guards the divisor with a
strict positivity test. -/
def div : PyF → PyF → PyF
  | nan, _ => nan
  | _, nan => nan
  | fin a, fin b => if b = 0 then nan else fin (a / b)
  | fin _, inf => fin 0
  | fin _, ninf => fin 0
  | inf, fin b => if 0 < b then inf else if b < 0 then ninf else nan
  | ninf, fin b => if 0 < b then ninf else if b < 0 then inf else nan
  | inf, inf => nan
  | inf, ninf => nan
  | ninf, inf => nan
  | ninf, ninf => nan

/-- Python unary negation on floats. -/
def neg : PyF → PyF
  | nan => nan
  | fin a => fin (-a)
  | inf => ninf
  | ninf => inf

/-- Python `abs` on floats. -/
def pabs : PyF → PyF
  | nan => nan
  | fin a => fin |a|
  | inf => inf
  | ninf => inf

end PyF

/-! ## Metric dictionaries

Training scripts pass metrics between modules as plain Python dicts,
sometimes nested one level (`{"clv": {...}}`).  They are modelled as
association lists whose values are either numbers or nested tables. -/

inductive MVal where
  | num (x : PyF)
  | tbl (t : List (String × MVal))

abbrev Metrics := List (String × MVal)

/-- Association-list lookup, mirroring Python dict key lookup. -/
def mlookup : Metrics → String → Option MVal
  | [], _ => none
  | (k, v) :: rest, key => if k = key then some v else mlookup rest key

/-- `d.get(key, default)` for a numeric metric.  A table stored under a
numeric key would raise a `TypeError` downstream in Python; type-correct
runs only store numbers under the metric keys read here. -/
def getNumD (m : Metrics) (key : String) (default : PyF) : PyF :=
  match mlookup m key with
  | some (.num x) => x
  | some (.tbl _) => default
  | none => default

/-- `metrics.get("clv", metrics)`: unwrap the nested CLV table when the
metrics dict has the nested shape, otherwise use the dict itself. -/
def clvTable (m : Metrics) : Metrics :=
  match mlookup m "clv" with
  | some (.tbl t) => t
  | _ => m

/-! ## Promotion policy (backend/models/promotion.py)

Reason strings are produced by f-strings in the source; they are modelled
as structured values carrying exactly the numbers interpolated into each
format string. -/

inductive Reason where
  | insufficientPR (improvement required : PyF)
  | rocRegression (change maxAllowed : PyF)
  | belowBaselinePR (challenger baseline : PyF)
  | promotedChurn (improvement championPR challengerPR : PyF)
  | insufficientRMSE (improvement required : PyF)
  | maeRegression (change maxAllowed : PyF)
  | r2Regression (change maxAllowed : PyF)
  | belowBaselineRMSE (challenger baseline : PyF)
  | promotedCLV (improvement championRMSE challengerRMSE : PyF)
  | insufficientSilhouette (improvement : PyF)
  | promotedSeg (improvement : PyF)
  | initialChampion
  deriving DecidableEq, Repr

structure PromotionPolicy where
  min_improvement : ℚ
  max_secondary_regression : ℚ
  min_sample_size : ℕ
  deriving DecidableEq, Repr

/-- `PromotionPolicy()` with the source's default arguments. -/
def defaultPolicy : PromotionPolicy :=
  { min_improvement := 1/100
    max_secondary_regression := 5/100
    min_sample_size := 100 }

/-- `PromotionPolicy.evaluate_churn_promotion`, translated branch by
branch from backend/models/promotion.py. -/
def evaluate_churn_promotion (P : PromotionPolicy)
    (challenger_metrics champion_metrics : Metrics)
    (baseline_metrics : Option Metrics) : Bool × Reason :=
  let challenger_pr := getNumD challenger_metrics "pr_auc" (.fin 0)
  let champion_pr := getNumD champion_metrics "pr_auc" (.fin 0)
  let pr_improvement :=
    if PyF.lt (.fin 0) champion_pr then
      PyF.div (PyF.sub challenger_pr champion_pr) champion_pr
    else
      if PyF.lt (.fin 0) challenger_pr then PyF.inf else .fin 0
  if PyF.lt pr_improvement (.fin P.min_improvement) then
    (false, .insufficientPR pr_improvement (.fin P.min_improvement))
  else
    let challenger_roc := getNumD challenger_metrics "roc_auc" (.fin 0)
    let champion_roc := getNumD champion_metrics "roc_auc" (.fin 0)
    let rocGate : Option Reason :=
      if PyF.lt (.fin 0) champion_roc then
        let roc_change := PyF.div (PyF.sub challenger_roc champion_roc) champion_roc
        if PyF.lt roc_change (.fin (-P.max_secondary_regression)) then
          some (.rocRegression roc_change (.fin (-P.max_secondary_regression)))
        else none
      else none
    match rocGate with
    | some r => (false, r)
    | none =>
      let baselineGate : Option Reason :=
        match baseline_metrics with
        | some b =>
          let baseline_pr := getNumD b "pr_auc" (.fin 0)
          if PyF.le challenger_pr baseline_pr then
            some (.belowBaselinePR challenger_pr baseline_pr)
          else none
        | none => none
      match baselineGate with
      | some r => (false, r)
      | none => (true, .promotedChurn pr_improvement champion_pr challenger_pr)

/-- `PromotionPolicy.evaluate_clv_promotion`, translated branch by branch
from backend/models/promotion.py. -/
def evaluate_clv_promotion (P : PromotionPolicy)
    (challenger_metrics champion_metrics : Metrics)
    (baseline_metrics : Option Metrics) : Bool × Reason :=
  let challenger_clv := clvTable challenger_metrics
  let champion_clv := clvTable champion_metrics
  let challenger_rmse := getNumD challenger_clv "rmse" .inf
  let champion_rmse := getNumD champion_clv "rmse" .inf
  let rmse_improvement :=
    if PyF.lt (.fin 0) champion_rmse then
      PyF.div (PyF.sub champion_rmse challenger_rmse) champion_rmse
    else .fin 0
  if PyF.lt rmse_improvement (.fin P.min_improvement) then
    (false, .insufficientRMSE rmse_improvement (.fin P.min_improvement))
  else
    let challenger_mae := getNumD challenger_clv "mae" .inf
    let champion_mae := getNumD champion_clv "mae" .inf
    let maeGate : Option Reason :=
      if PyF.lt (.fin 0) champion_mae then
        let mae_change := PyF.div (PyF.sub champion_mae challenger_mae) champion_mae
        if PyF.lt mae_change (.fin (-P.max_secondary_regression)) then
          some (.maeRegression (PyF.neg mae_change) (.fin P.max_secondary_regression))
        else none
      else none
    match maeGate with
    | some r => (false, r)
    | none =>
      let challenger_r2 := getNumD challenger_clv "r2" .ninf
      let champion_r2 := getNumD champion_clv "r2" .ninf
      let r2Gate : Option Reason :=
        if PyF.lt (.fin 0) champion_r2 then
          let r2_change := PyF.div (PyF.sub challenger_r2 champion_r2) (PyF.pabs champion_r2)
          if PyF.lt r2_change (.fin (-P.max_secondary_regression)) then
            some (.r2Regression r2_change (.fin (-P.max_secondary_regression)))
          else none
        else none
      match r2Gate with
      | some r => (false, r)
      | none =>
        let baselineGate : Option Reason :=
          match baseline_metrics with
          | some b =>
            let baseline_clv := clvTable b
            let baseline_rmse := getNumD baseline_clv "rmse" .inf
            if PyF.le baseline_rmse challenger_rmse then
              some (.belowBaselineRMSE challenger_rmse baseline_rmse)
            else none
          | none => none
        match baselineGate with
        | some r => (false, r)
        | none => (true, .promotedCLV rmse_improvement champion_rmse challenger_rmse)

/-- `PromotionPolicy.evaluate_segmentation_promotion` from
backend/models/promotion.py. -/
def evaluate_segmentation_promotion (P : PromotionPolicy)
    (challenger_metrics champion_metrics : Metrics) : Bool × Reason :=
  let challenger_sil := getNumD challenger_metrics "silhouette" (.fin 0)
  let champion_sil := getNumD champion_metrics "silhouette" (.fin 0)
  let improvement :=
    if PyF.lt (.fin 0) champion_sil then
      PyF.div (PyF.sub challenger_sil champion_sil) champion_sil
    else
      if PyF.lt (.fin 0) challenger_sil then PyF.inf else .fin 0
  if PyF.lt improvement (.fin P.min_improvement) then
    (false, .insufficientSilhouette improvement)
  else
    (true, .promotedSeg improvement)

/-! ## Legacy promotion policy (backend/models/promotion_policy.py)

These use Python `d[key]` indexing, which raises `KeyError` when the key
is absent; that is modelled with `Option`. -/

/-- Numeric `d[key]` lookup; `none` models a `KeyError` (or the
`TypeError` of comparing a nested table). -/
def getNum (m : Metrics) (key : String) : Option PyF :=
  match mlookup m key with
  | some (.num x) => some x
  | _ => none

/-- `better_churn(new, old) = new["pr_auc"] > old["pr_auc"]`. -/
def better_churn (new old : Metrics) : Option Bool :=
  match getNum new "pr_auc", getNum old "pr_auc" with
  | some a, some b => some (PyF.lt b a)
  | _, _ => none

/-- `better_clv(new, old) = new["rmse"] < old["rmse"]`. -/
def better_clv (new old : Metrics) : Option Bool :=
  match getNum new "rmse", getNum old "rmse" with
  | some a, some b => some (PyF.lt a b)
  | _, _ => none

/-- `better_segmentation(new, old) = new["silhouette"] > old["silhouette"]`. -/
def better_segmentation (new old : Metrics) : Option Bool :=
  match getNum new "silhouette", getNum old "silhouette" with
  | some a, some b => some (PyF.lt b a)
  | _, _ => none

/-! ## Champion records and trainer promotion decisions

`load_champion` returns the parsed champion.json or `None`; each train
script then decides whether to call `promote_champion`. -/

structure Champion where
  model_name : String
  version : ℕ
  metrics : Metrics

/-- The churn trainer's decision (backend/models/churn/train.py):
`current is None or better_churn(metrics["future"], current["metrics"])`. -/
def churn_train_promotes (current : Option Champion) (future_metrics : Metrics) :
    Option Bool :=
  match current with
  | none => some true
  | some c => better_churn future_metrics c.metrics

/-- The segmentation trainer's decision
(backend/models/segmentation/train.py). -/
def segmentation_train_promotes (current : Option Champion) (metrics : Metrics) :
    Option Bool :=
  match current with
  | none => some true
  | some c => better_segmentation metrics c.metrics

/-- The CLV trainer's decision (backend/models/clv/train.py): with no
champion, auto-promote with reason "Initial champion model"; otherwise
delegate to `evaluate_clv_promotion` with
`current["metrics"].get("clv", current["metrics"])` as champion metrics
and the default thresholds. -/
def clv_train_promotes (current : Option Champion) (clv_metrics : Metrics) :
    Bool × Reason :=
  match current with
  | none => (true, .initialChampion)
  | some c =>
    evaluate_clv_promotion
      { min_improvement := 1/100, max_secondary_regression := 5/100,
        min_sample_size := 100 }
      clv_metrics (clvTable c.metrics) none

/-! ## Drift detection (backend/orchestration/drift_check.py)

`psi` computes the Population Stability Index with `np.percentile`,
`np.histogram` and `np.log` over float arrays; the logarithm is
transcendental, so the numeric scorer is taken as a parameter.  The
categorical total-variation distance and the severity thresholds are
embedded concretely. -/

structure DriftReport where
  numeric : List (String × ℚ)
  categorical : List (String × ℚ)
  severe : Bool

/-- `d.get(k, 0)` over a rational-valued frequency dict. -/
def freqGetD (m : List (String × ℚ)) (key : String) : ℚ :=
  match m.find? (fun p => p.1 = key) with
  | some p => p.2
  | none => 0

/-- `df[col].value_counts(normalize=True).to_dict()`: category
frequencies of a column of values. -/
def value_counts_normalize (xs : List String) : List (String × ℚ) :=
  xs.dedup.map (fun k => (k, (xs.count k : ℚ) / (xs.length : ℚ)))

/-- `sum(abs(curr.get(k, 0) - base.get(k, 0)) for k in set(base) | set(curr))`. -/
def tv_drift (base curr : List (String × ℚ)) : ℚ :=
  ((base.map Prod.fst ++ curr.map Prod.fst).dedup).foldl
    (fun acc k => acc + |freqGetD curr k - freqGetD base k|) 0

/-- `detect_drift` from backend/orchestration/drift_check.py.  `psi` is
the abstracted numeric scorer; `baselineNum c` are the baseline quantile
values for numeric column `c`, `baselineCat c` the baseline category
frequencies for categorical column `c`, and `dfNum`/`dfCat` the current
column values. -/
def detect_drift (psi : List ℚ → List ℚ → ℚ)
    (dfNum : String → List ℚ) (dfCat : String → List String)
    (baselineNum : String → List ℚ) (baselineCat : String → List (String × ℚ))
    (numeric_cols categorical_cols : List String) : DriftReport :=
  let report : DriftReport := { numeric := [], categorical := [], severe := false }
  let report := numeric_cols.foldl
    (fun r col =>
      let score := psi (baselineNum col) (dfNum col)
      { r with
        numeric := r.numeric ++ [(col, score)]
        severe := if (1/4 : ℚ) ≤ score then true else r.severe })
    report
  categorical_cols.foldl
    (fun r col =>
      let drift := tv_drift (baselineCat col) (value_counts_normalize (dfCat col))
      { r with
        categorical := r.categorical ++ [(col, drift)]
        severe := if (3/10 : ℚ) ≤ drift then true else r.severe })
    report

/-! ## Retraining policy (backend/orchestration/retraining_policy.py)

`state.get(key)` returns `None` for a missing key, so both fingerprint
arguments are modelled as `Option String` (in `main`, `feature_fp` is
itself `None` when the raw data is unchanged and no fingerprint was
stored). -/

/-- `should_rebuild_features(prev_fp, new_fp) = prev_fp != new_fp`. -/
def should_rebuild_features (prev_fp : Option String) (new_fp : String) : Bool :=
  decide (prev_fp ≠ some new_fp)

/-- `should_retrain_models(prev_fp, feature_fp) = prev_fp != feature_fp`. -/
def should_retrain_models (prev_fp feature_fp : Option String) : Bool :=
  decide (prev_fp ≠ feature_fp)

/-- The retraining decision in `main` (backend/orchestration/run_pipeline.py):
`should_retrain_models(state.get("feature_fingerprint"), feature_fp) or
(churn_drift["severe"] or clv_drift["severe"] or segmentation_drift["severe"])`. -/
def retrainDecision (prev_feature_fp feature_fp : Option String)
    (churn_severe clv_severe seg_severe : Bool) : Bool :=
  should_retrain_models prev_feature_fp feature_fp ||
    (churn_severe || clv_severe || seg_severe)

/-! ## Pipeline run and state persistence
(backend/orchestration/run_pipeline.py)

`main` runs steps sequentially with no exception handling and calls
`save_state` as its last statement.  Each potentially-raising step is
modelled as an `Except`-valued oracle; the run is the source-order
threading of those steps, and the state file is replaced only by a run
that reaches the end. -/

/-- The dict written by `save_state` at the end of a successful run. -/
structure NewState where
  raw_data_fingerprint : String
  feature_fingerprint : Option String
  last_run : String
  snapshot_date : Option String
  outputs_built : Bool
  churn_severe : Bool
  clv_severe : Bool
  seg_severe : Bool
  deriving DecidableEq, Repr

/-- The fields `main` reads from the loaded state via `state.get`. -/
structure StoredState where
  raw_data_fingerprint : Option String
  feature_fingerprint : Option String
  deriving DecidableEq, Repr

/-- Outcomes of the individual pipeline steps of one invocation of
`main`, each of which may raise (modelled as `Except.error`). -/
structure RunSteps where
  raw_fp : Except String String
  ingest_and_features : Except String String
  drift_churn : Except String Bool
  drift_clv : Except String Bool
  drift_seg : Except String Bool
  train : Except String Unit
  inference : Except String Unit
  snapshot : Except String Unit
  outputs : Except String Unit
  now : String

/-- `load_state` followed by the `state.get` reads in `main`; a missing,
empty or corrupted state file loads as the empty dict. -/
def load_state (file : Option NewState) : StoredState :=
  match file with
  | none => { raw_data_fingerprint := none, feature_fingerprint := none }
  | some st =>
    { raw_data_fingerprint := some st.raw_data_fingerprint
      feature_fingerprint := st.feature_fingerprint }

/-- Exception propagation: run `x`; on success feed the value to the
rest of the computation, on an exception stop and propagate it. -/
def estep {A B : Type} (x : Except String A) (f : A → Except String B) :
    Except String B :=
  match x with
  | .error e => .error e
  | .ok a => f a

/-- The body of `main`: steps in source order, stopping at the first
exception, producing the state that `save_state` writes at the end. -/
def runPipeline (state : StoredState) (s : RunSteps) : Except String NewState :=
  estep s.raw_fp (fun raw_fp =>
  estep (if should_rebuild_features state.raw_data_fingerprint raw_fp then
           estep s.ingest_and_features (fun fp => .ok (some fp))
         else .ok state.feature_fingerprint) (fun feature_fp =>
  estep s.drift_churn (fun churn_severe =>
  estep s.drift_clv (fun clv_severe =>
  estep s.drift_seg (fun seg_severe =>
  estep (if retrainDecision state.feature_fingerprint feature_fp
             churn_severe clv_severe seg_severe
         then s.train else .ok ()) (fun _ =>
  estep s.inference (fun _ =>
  estep s.snapshot (fun _ =>
  estep s.outputs (fun _ =>
  .ok { raw_data_fingerprint := raw_fp
        feature_fingerprint := feature_fp
        last_run := s.now
        snapshot_date := feature_fp
        outputs_built := true
        churn_severe := churn_severe
        clv_severe := clv_severe
        seg_severe := seg_severe })))))))))

/-- The state file after one invocation of `main` against a state file
holding `file`: replaced on success, untouched when any step raised. -/
def run_and_persist (file : Option NewState) (s : RunSteps) : Option NewState :=
  match runPipeline (load_state file) s with
  | .ok st => some st
  | .error _ => file

/-! ## Snapshot schema (backend/snapshot/schema.py) -/

/-- `REQUIRED_COLUMNS` from backend/snapshot/schema.py, verbatim. -/
def REQUIRED_COLUMNS : List String :=
  [ "customer_id", "snapshot_date",
    "churn_probability", "clv_12m", "segment_id", "segment_name",
    "segment_confidence",
    "recency_days", "order_frequency_30d", "order_frequency_90d",
    "session_frequency_30d", "session_frequency_90d", "total_orders",
    "total_spend", "spend_30d", "spend_90d", "avg_order_value",
    "return_rate",
    "is_active_30d", "is_active_90d", "days_since_last_session",
    "days_since_last_order",
    "health_score", "health_band", "investment_priority",
    "high_churn_risk_flag", "high_value_flag", "at_risk_high_value_flag",
    "new_customer_flag", "loyal_customer_flag",
    "churn_probability_delta_7d", "churn_probability_delta_30d",
    "clv_delta_30d", "health_score_delta_30d",
    "data_completeness_score", "feature_version", "model_version",
    "pipeline_run_id" ]

/-- `validate_snapshot_schema(df)`: raise `ValueError` naming the columns
of `set(REQUIRED_COLUMNS) - set(df.columns)` when that set is nonempty.
The function reads only `df.columns`, so the embedding takes the list of
column names; the raised error carries the missing columns. -/
def validate_snapshot_schema (columns : List String) : Except (List String) Unit :=
  let missing := REQUIRED_COLUMNS.filter (fun c => decide (c ∉ columns))
  if missing.isEmpty then .ok () else .error missing

/-- The final gate and persistence step of `build_customer_snapshot`
(backend/snapshot/build_customer_snapshot.py): validate the assembled
table, then write `snapshot_date=<date>/customer_snapshot.parquet`.
`files` is the set of snapshot files already on disk; a raise propagates
before any write. -/
def snapshot_validate_and_persist (columns : List String)
    (snapshot_date : String) (files : List String) :
    Except (List String) (List String) :=
  match validate_snapshot_schema columns with
  | .error missing => .error missing
  | .ok _ =>
    .ok (files ++ ["snapshot_date=" ++ snapshot_date ++ "/customer_snapshot.parquet"])

/-- The snapshot files on disk after a build attempt: unchanged when the
build raised. -/
def snapshot_files_after (columns : List String) (snapshot_date : String)
    (files : List String) : List String :=
  match snapshot_validate_and_persist columns snapshot_date files with
  | .ok files2 => files2
  | .error _ => files

/-! ## Kill switches (backend/safeguards/kill_switch.py) -/

/-- One kill-switch record as stored in `config["kill_switches"]`. -/
structure KillSwitch where
  id : String
  scope : String
  target : String
  status : String
  reason : String
  activated_by : String
  activated_at : String
  deactivated_at : Option String
  deriving DecidableEq, Repr

/-- One entry of `config["activation_history"]`. -/
structure HistoryEntry where
  kill_switch_id : String
  action : String
  timestamp : String
  user : String
  deriving DecidableEq, Repr

/-- The `KillSwitchManager` configuration: the `kill_switches` dict
(insertion-ordered id → record) and the append-only history. -/
structure KillSwitchConfig where
  kill_switches : List (String × KillSwitch)
  activation_history : List HistoryEntry
  deriving DecidableEq, Repr

/-- Python dict assignment `d[k] = v`: overwrite in place when the key
exists, append otherwise. -/
def dictSet (d : List (String × KillSwitch)) (k : String) (v : KillSwitch) :
    List (String × KillSwitch) :=
  if d.any (fun p => p.1 = k) then
    d.map (fun p => if p.1 = k then (k, v) else p)
  else d ++ [(k, v)]

/-- `KillSwitchManager.activate_kill_switch`: build the id from scope,
target and the current local timestamp, store an active record and log
the activation.  Returns the updated config and the kill-switch id. -/
def activate_kill_switch (cfg : KillSwitchConfig)
    (scope target reason activated_by : String)
    (now_local now_utc : String) : KillSwitchConfig × String :=
  let kill_switch_id := scope ++ "_" ++ target ++ "_" ++ now_local
  let ks : KillSwitch :=
    { id := kill_switch_id, scope := scope, target := target
      status := "active", reason := reason, activated_by := activated_by
      activated_at := now_utc, deactivated_at := none }
  ({ kill_switches := dictSet cfg.kill_switches kill_switch_id ks
     activation_history := cfg.activation_history ++
       [{ kill_switch_id := kill_switch_id, action := "activated"
          timestamp := now_utc, user := activated_by }] },
   kill_switch_id)

/-- `KillSwitchManager.deactivate_kill_switch`: fail when the id is
unknown or the switch is not active, otherwise mark it deactivated and
log the deactivation. -/
def deactivate_kill_switch (cfg : KillSwitchConfig)
    (kill_switch_id deactivated_by : String) (now_utc : String) :
    KillSwitchConfig × Bool :=
  match cfg.kill_switches.find? (fun p => p.1 = kill_switch_id) with
  | none => (cfg, false)
  | some entry =>
    if entry.2.status ≠ "active" then (cfg, false)
    else
      ({ kill_switches := cfg.kill_switches.map
           (fun p =>
             if p.1 = kill_switch_id then
               (p.1, { p.2 with status := "deactivated",
                                deactivated_at := some now_utc })
             else p)
         activation_history := cfg.activation_history ++
           [{ kill_switch_id := kill_switch_id, action := "deactivated"
              timestamp := now_utc, user := deactivated_by }] },
       true)

/-- `KillSwitchManager.is_blocked(scope, target)`: some stored switch is
active and matches both scope and target. -/
def is_blocked (cfg : KillSwitchConfig) (scope target : String) : Bool :=
  cfg.kill_switches.any
    (fun p => p.2.status = "active" && p.2.scope = scope && p.2.target = target)

/-! ## Prediction validation (SafeguardManager.validate_prediction)

Predictions are Python floats (`PyF`), including the special values.  The
note strings are modelled as structured values carrying the interpolated
numbers. -/

/-- Python `min(a, b)`: keeps `a` unless `b` compares strictly smaller,
so a `nan` second argument is never selected. -/
def pymin (a b : PyF) : PyF := if PyF.lt b a then b else a

/-- Python `max(a, b)`: keeps `a` unless `b` compares strictly larger. -/
def pymax (a b : PyF) : PyF := if PyF.lt a b then b else a

inductive ClipNote where
  | killSwitched (model_type : String)
  | churnClipped (raw clipped : PyF)
  | negativeClv (raw : PyF)
  | clvCapped (raw maxClv : PyF)
  deriving DecidableEq, Repr

/-- `SafeguardManager.validate_prediction`, translated branch by branch:
kill-switch gate first, then per-model-type range clipping with Python
float comparisons (every comparison with `nan` is false, so a `nan`
prediction falls through each range test), ending at
`(True, prediction, None)`. -/
def validate_prediction (cfg : KillSwitchConfig) (prediction : PyF)
    (model_type : String) : Bool × Option PyF × Option ClipNote :=
  if is_blocked cfg "model_type" model_type then
    (false, none, some (.killSwitched model_type))
  else if model_type = "churn" then
    if PyF.lt prediction (.fin 0) || PyF.lt (.fin 1) prediction then
      let clipped := pymax (.fin 0) (pymin (.fin 1) prediction)
      (true, some clipped, some (.churnClipped prediction clipped))
    else (true, some prediction, none)
  else if model_type = "clv" then
    if PyF.lt prediction (.fin 0) then
      (true, some (.fin 0), some (.negativeClv prediction))
    else if PyF.lt (.fin 100000) prediction then
      (true, some (.fin 100000), some (.clvCapped prediction (.fin 100000)))
    else (true, some prediction, none)
  else (true, some prediction, none)

/-! ## Fingerprint helpers

`fingerprint_dataframe` and `fingerprint_directory`
(backend/orchestration/retraining_policy.py) hash content with
`hashlib.md5`; the digest is a pure library function of the byte stream
and is modelled by a concrete deterministic stand-in, which preserves the
determinism contract under scrutiny.  `backend/main.py` defines
`dataset_fingerprint` twice, and both definitions access nonexistent
attributes of `pandas.util` (`has_pandas_object` in the first,
`hash_pandas` in the second, which shadows the first), so attribute
lookup on that module is modelled explicitly. -/

/-- Content of a DataFrame as far as hashing observes it: column names,
row index and cell values (encoded as naturals). -/
structure DataFrame where
  colNames : List String
  index : List ℕ
  cells : List (List ℕ)

/-- `df.copy()`: an equal-content copy (value semantics). -/
def DataFrame.copy (df : DataFrame) : DataFrame := df

/-- Stand-in for the MD5 hex digest of a byte stream: a deterministic
128-bit rolling hash rendered in hex. -/
def md5hex (bytes : List ℕ) : String :=
  String.mk (Nat.toDigits 16
    (bytes.foldl (fun h b => (h * 131 + b + 1) % (2 ^ 128)) 0))

/-- Stand-in for `pd.util.hash_pandas_object(df, index=True).values`:
one 64-bit hash per row, covering the index and every cell. -/
def hash_pandas_object_rows (df : DataFrame) : List ℕ :=
  (df.index.zip df.cells).map
    (fun p => (p.1 :: p.2).foldl (fun h b => (h * 257 + b + 1) % (2 ^ 64)) 0)

/-- The attributes `pandas.util` actually exposes among those these
helpers try to access: `hash_pandas_object` exists; `has_pandas_object`
and `hash_pandas` do not. -/
def pd_util_hasattr (name : String) : Bool :=
  name = "hash_pandas_object" || name = "hash_array"

/-- `fingerprint_dataframe` from backend/orchestration/retraining_policy.py:
`hashlib.md5(pd.util.hash_pandas_object(df, index=True).values).hexdigest()`. -/
def fingerprint_dataframe (df : DataFrame) : String :=
  md5hex (hash_pandas_object_rows df)

/-- A directory as the hashing observes it: file name to byte content. -/
structure PyDirectory where
  files : List (String × List ℕ)

/-- `fingerprint_directory` from backend/orchestration/retraining_policy.py:
MD5 over the concatenated bytes of the files in name-sorted order. -/
def fingerprint_directory (d : PyDirectory) : String :=
  md5hex (((d.files.insertionSort (fun a b => a.1 ≤ b.1)).map Prod.snd).flatten)

/-- The first `dataset_fingerprint` in backend/main.py: evaluates
`pd.util.has_pandas_object(df, index=True)` — the attribute lookup of
`has_pandas_object` on `pandas.util` raises `AttributeError` before
anything is hashed. -/
def dataset_fingerprint_v1 (df : DataFrame) : Except String String :=
  if pd_util_hasattr "has_pandas_object" then
    .ok (md5hex (hash_pandas_object_rows df))
  else
    .error "AttributeError: module pandas.util has no attribute has_pandas_object"

/-- The second `dataset_fingerprint` in backend/main.py (the definition
in effect, shadowing the first): evaluates
`pd.util.hash_pandas.object(df, index=True)` — the attribute lookup of
`hash_pandas` on `pandas.util` raises `AttributeError` before anything is
hashed. -/
def dataset_fingerprint (df : DataFrame) : Except String String :=
  if pd_util_hasattr "hash_pandas" then
    .ok (md5hex (hash_pandas_object_rows df))
  else
    .error "AttributeError: module pandas.util has no attribute hash_pandas"

/-! ## Theorems -/

/-- `validate_snapshot_schema` errors exactly on a missing required
column and succeeds exactly when every required column is present. -/
lemma validate_gate_iff (columns : List String) :
    ((∃ missing, validate_snapshot_schema columns = .error missing) ↔
      ∃ c ∈ REQUIRED_COLUMNS, c ∉ columns) ∧
    (validate_snapshot_schema columns = .ok () ↔
      ∀ c ∈ REQUIRED_COLUMNS, c ∈ columns) := by
  have key : (REQUIRED_COLUMNS.filter (fun c => decide (c ∉ columns))).isEmpty = true ↔
      ∀ c ∈ REQUIRED_COLUMNS, c ∈ columns := by
    rw [List.isEmpty_iff, List.filter_eq_nil_iff]
    simp
  by_cases h : (REQUIRED_COLUMNS.filter (fun c => decide (c ∉ columns))).isEmpty = true
  · have hok : validate_snapshot_schema columns = .ok () := by
      unfold validate_snapshot_schema
      simp only [h, if_true]
    have hall := key.mp h
    rw [hok]
    constructor
    · constructor
      · rintro ⟨m, hm⟩
        simp at hm
      · rintro ⟨c, hcr, hcn⟩
        exact absurd (hall c hcr) hcn
    · constructor
      · intro _
        exact hall
      · intro _
        rfl
  · have herr : validate_snapshot_schema columns =
        .error (REQUIRED_COLUMNS.filter (fun c => decide (c ∉ columns))) := by
      unfold validate_snapshot_schema
      simp only [h, if_false]
      simp
    have hnall : ¬ ∀ c ∈ REQUIRED_COLUMNS, c ∈ columns := fun hc => h (key.mpr hc)
    rw [herr]
    constructor
    · constructor
      · intro _
        push_neg at hnall
        obtain ⟨c, hcr, hcn⟩ := hnall
        exact ⟨c, hcr, hcn⟩
      · intro _
        exact ⟨_, rfl⟩
    · constructor
      · intro hcontra
        simp at hcontra
      · intro hc
        exact absurd hc hnall

/-- C3: the orchestrator's retraining decision fires if and only if the
feature fingerprint differs from the stored one or some model family's
drift report is severe; with an unchanged fingerprint and no severe
drift, training is skipped. -/
theorem c3_retrain_iff (prev_fp feature_fp : Option String)
    (churn_severe clv_severe seg_severe : Bool) :
    retrainDecision prev_fp feature_fp churn_severe clv_severe seg_severe = true ↔
      (prev_fp ≠ feature_fp ∨ churn_severe = true ∨ clv_severe = true ∨
        seg_severe = true) := by
  simp [retrainDecision, should_retrain_models]
  tauto

/-- C9: both `dataset_fingerprint` definitions in backend/main.py raise
`AttributeError` on every DataFrame (they access the nonexistent
`pandas.util` attributes `has_pandas_object` and `hash_pandas`), instead
of returning a deterministic digest; `fingerprint_dataframe` in
backend/orchestration/retraining_policy.py does satisfy the determinism
contract on equal-content inputs. -/
theorem c9_fingerprint_helpers (df : DataFrame) :
    (∃ msg, dataset_fingerprint df = .error msg) ∧
    (∃ msg, dataset_fingerprint_v1 df = .error msg) ∧
    fingerprint_dataframe df = fingerprint_dataframe df.copy := by
  refine ⟨⟨"AttributeError: module pandas.util has no attribute hash_pandas", ?_⟩,
    ⟨"AttributeError: module pandas.util has no attribute has_pandas_object", ?_⟩, rfl⟩
  · unfold dataset_fingerprint
    simp [pd_util_hasattr]
  · unfold dataset_fingerprint_v1
    simp [pd_util_hasattr]

/-- C10: `validate_snapshot_schema` raises if and only if at least one
required column is absent; a table containing every required column
passes validation regardless of extra columns or column order (the
function reads only the set of column names, never dtypes). -/
theorem c10_schema_gate_iff (columns : List String) :
    ((∃ missing, validate_snapshot_schema columns = .error missing) ↔
      ∃ c ∈ REQUIRED_COLUMNS, c ∉ columns) ∧
    (validate_snapshot_schema columns = .ok () ↔
      ∀ c ∈ REQUIRED_COLUMNS, c ∈ columns) :=
  validate_gate_iff columns

/-- C6: when the assembled snapshot table is missing a required column,
the build raises before the persistence step and no snapshot file is
written; a snapshot file is created exactly for tables containing every
required column. -/
theorem c6_snapshot_gate (columns : List String) (snapshot_date : String)
    (files : List String) :
    ((∃ c ∈ REQUIRED_COLUMNS, c ∉ columns) →
      (∃ missing, snapshot_validate_and_persist columns snapshot_date files =
        .error missing) ∧
      snapshot_files_after columns snapshot_date files = files) ∧
    ((∀ c ∈ REQUIRED_COLUMNS, c ∈ columns) →
      snapshot_files_after columns snapshot_date files =
        files ++ ["snapshot_date=" ++ snapshot_date ++ "/customer_snapshot.parquet"]) := by
  obtain ⟨herr_iff, hok_iff⟩ := validate_gate_iff columns
  constructor
  · intro hmiss
    obtain ⟨m, hm⟩ := herr_iff.mpr hmiss
    constructor
    · refine ⟨m, ?_⟩
      unfold snapshot_validate_and_persist
      rw [hm]
    · unfold snapshot_files_after snapshot_validate_and_persist
      rw [hm]
  · intro hall
    have hok := hok_iff.mpr hall
    unfold snapshot_files_after snapshot_validate_and_persist
    rw [hok]

/-- Witness for C6: dropping `health_band` makes the build raise and
write nothing, while the full column set persists the snapshot file. -/
theorem c6_snapshot_gate_witness :
    ((∃ missing, snapshot_validate_and_persist
        (REQUIRED_COLUMNS.erase "health_band") "2024-01-01" [] = .error missing) ∧
      snapshot_files_after (REQUIRED_COLUMNS.erase "health_band") "2024-01-01" [] = []) ∧
    snapshot_files_after REQUIRED_COLUMNS "2024-01-01" [] =
      ["snapshot_date=2024-01-01/customer_snapshot.parquet"] := by
  constructor
  · exact (c6_snapshot_gate (REQUIRED_COLUMNS.erase "health_band") "2024-01-01" []).1
      (by decide)
  · have h := (c6_snapshot_gate REQUIRED_COLUMNS "2024-01-01" []).2 (by decide)
    simpa using h

lemma num_fold_severe (psi : List ℚ → List ℚ → ℚ)
    (dfNum : String → List ℚ) (baselineNum : String → List ℚ) :
    ∀ (cols : List String) (r : DriftReport),
      (cols.foldl
        (fun r col =>
          let score := psi (baselineNum col) (dfNum col)
          { r with
            numeric := r.numeric ++ [(col, score)]
            severe := if (1/4 : ℚ) ≤ score then true else r.severe })
        r).severe
      = (r.severe ||
          cols.any (fun col => decide ((1/4 : ℚ) ≤ psi (baselineNum col) (dfNum col))))
  | [], r => by simp
  | col :: cols, r => by
    rw [List.foldl_cons, num_fold_severe psi dfNum baselineNum cols]
    by_cases h : (1/4 : ℚ) ≤ psi (baselineNum col) (dfNum col) <;>
      simp [h, Bool.or_comm, Bool.or_left_comm, Bool.or_assoc]

lemma cat_fold_severe (dfCat : String → List String)
    (baselineCat : String → List (String × ℚ)) :
    ∀ (cols : List String) (r : DriftReport),
      (cols.foldl
        (fun r col =>
          let drift := tv_drift (baselineCat col) (value_counts_normalize (dfCat col))
          { r with
            categorical := r.categorical ++ [(col, drift)]
            severe := if (3/10 : ℚ) ≤ drift then true else r.severe })
        r).severe
      = (r.severe ||
          cols.any (fun col =>
            decide ((3/10 : ℚ) ≤ tv_drift (baselineCat col)
              (value_counts_normalize (dfCat col)))))
  | [], r => by simp
  | col :: cols, r => by
    rw [List.foldl_cons, cat_fold_severe dfCat baselineCat cols]
    by_cases h : (3/10 : ℚ) ≤ tv_drift (baselineCat col) (value_counts_normalize (dfCat col))
    · simp [h, Bool.or_comm, Bool.or_left_comm, Bool.or_assoc]
    · simp [h]

/-- C2: `detect_drift` reports `severe = true` if and only if some
numeric feature's PSI score is at least 0.25 or some categorical
feature's total variation distance is at least 0.3; the boundary is
inclusive — a single numeric score of exactly 0.25 is severe while
0.249999 alone is not. -/
theorem c2_drift_severe_iff (psi : List ℚ → List ℚ → ℚ)
    (dfNum : String → List ℚ) (dfCat : String → List String)
    (baselineNum : String → List ℚ) (baselineCat : String → List (String × ℚ))
    (numeric_cols categorical_cols : List String) :
    ((detect_drift psi dfNum dfCat baselineNum baselineCat
        numeric_cols categorical_cols).severe = true ↔
      ((∃ c ∈ numeric_cols, (1/4 : ℚ) ≤ psi (baselineNum c) (dfNum c)) ∨
        (∃ c ∈ categorical_cols,
          (3/10 : ℚ) ≤ tv_drift (baselineCat c) (value_counts_normalize (dfCat c))))) ∧
    (detect_drift (fun _ _ => 1/4) (fun _ => []) (fun _ => []) (fun _ => [])
      (fun _ => []) ["f"] []).severe = true ∧
    (detect_drift (fun _ _ => 249999/1000000) (fun _ => []) (fun _ => [])
      (fun _ => []) (fun _ => []) ["f"] []).severe = false := by
  refine ⟨?_, by norm_num [detect_drift], by norm_num [detect_drift]⟩
  unfold detect_drift
  rw [cat_fold_severe, num_fold_severe]
  simp

/-- C8 counterexample: a NaN churn prediction fails both range tests
(Python comparisons with `nan` are always false) and is returned
unchanged as `(True, nan, None)` — it satisfies neither domain bound
(`0 <= nan` and `nan <= 1` are both false) yet carries no note, so the
claimed bounds/no-silent-truncation property fails at this input. -/
theorem c8_nan_counterexample :
    validate_prediction { kill_switches := [], activation_history := [] }
      .nan "churn" = (true, some .nan, none) ∧
    PyF.le (.fin 0) .nan = false ∧ PyF.le .nan (.fin 1) = false :=
  ⟨rfl, rfl, rfl⟩

/-- C8 (amended): for any non-NaN raw prediction and a model type not
blocked by a kill switch, `validate_prediction` returns a finite value
within the domain bounds ([0,1] for churn, [0,100000] for clv) and
returns a note exactly when the returned value differs from the raw
input; a NaN prediction, however, is returned unchanged with no note. -/
theorem c8_prediction_bounds (cfg : KillSwitchConfig) (x : PyF) (mt : String)
    (hb : is_blocked cfg "model_type" mt = false) (hn : x ≠ .nan) :
    (validate_prediction cfg x mt).1 = true ∧
    ∃ v, (validate_prediction cfg x mt).2.1 = some v ∧
      (mt = "churn" → ∃ q : ℚ, v = .fin q ∧ 0 ≤ q ∧ q ≤ 1) ∧
      (mt = "clv" → ∃ q : ℚ, v = .fin q ∧ 0 ≤ q ∧ q ≤ 100000) ∧
      ((validate_prediction cfg x mt).2.2 ≠ none ↔ v ≠ x) := by
  unfold validate_prediction
  rw [hb]
  simp only [Bool.false_eq_true, if_false]
  rcases eq_or_ne mt "churn" with hmt | hmt
  · subst hmt
    simp only [if_pos rfl]
    cases x with
    | nan => exact absurd rfl hn
    | inf =>
      rw [show (PyF.lt .inf (.fin 0) || PyF.lt (.fin 1) .inf) = true from rfl]
      simp only [if_true]
      rw [show pymax (.fin 0) (pymin (.fin 1) .inf) = .fin 1 from by
        norm_num [pymin, pymax, PyF.lt]]
      refine ⟨by trivial, .fin 1, rfl, fun _ => ⟨1, rfl, by norm_num⟩,
        fun hclv => by simp at hclv, fun _ => by simp, fun _ => by simp⟩
    | ninf =>
      rw [show (PyF.lt .ninf (.fin 0) || PyF.lt (.fin 1) .ninf) = true from rfl]
      simp only [if_true]
      rw [show pymax (.fin 0) (pymin (.fin 1) .ninf) = .fin 0 from by
        norm_num [pymin, pymax, PyF.lt]]
      refine ⟨by trivial, .fin 0, rfl, fun _ => ⟨0, rfl, by norm_num⟩,
        fun hclv => by simp at hclv, fun _ => by simp, fun _ => by simp⟩
    | fin q =>
      by_cases h1 : q < 0
      · rw [show (PyF.lt (.fin q) (.fin 0) || PyF.lt (.fin 1) (.fin q)) = true from by
          simp [PyF.lt, h1]]
        simp only [if_true]
        rw [show pymax (.fin 0) (pymin (.fin 1) (.fin q)) = .fin 0 from by
          simp [pymin, pymax, PyF.lt, h1.trans one_pos, not_lt.mpr h1.le]]
        refine ⟨by trivial, .fin 0, rfl, fun _ => ⟨0, rfl, by norm_num⟩,
          fun hclv => by simp at hclv, fun _ => by simp [Ne.symm (ne_of_lt h1)], fun _ => by simp⟩
      · by_cases h2 : 1 < q
        · rw [show (PyF.lt (.fin q) (.fin 0) || PyF.lt (.fin 1) (.fin q)) = true from by
            simp [PyF.lt, h2]]
          simp only [if_true]
          rw [show pymax (.fin 0) (pymin (.fin 1) (.fin q)) = .fin 1 from by
            simp [pymin, pymax, PyF.lt, not_lt.mpr h2.le]]
          refine ⟨by trivial, .fin 1, rfl, fun _ => ⟨1, rfl, by norm_num⟩,
            fun hclv => by simp at hclv, fun _ => by simp [ne_of_lt h2],
            fun _ => by simp⟩
        · rw [show (PyF.lt (.fin q) (.fin 0) || PyF.lt (.fin 1) (.fin q)) = false from by
            simp [PyF.lt, h1, h2]]
          simp only [Bool.false_eq_true, if_false]
          refine ⟨by trivial, .fin q, rfl,
            fun _ => ⟨q, rfl, not_lt.mp h1, not_lt.mp h2⟩,
            fun hclv => by simp at hclv, by simp⟩
  · rw [if_neg hmt]
    rcases eq_or_ne mt "clv" with hmt2 | hmt2
    · subst hmt2
      simp only [if_pos rfl]
      cases x with
      | nan => exact absurd rfl hn
      | inf =>
        rw [show PyF.lt .inf (.fin 0) = false from rfl]
        simp only [Bool.false_eq_true, if_false]
        rw [show PyF.lt (.fin 100000) .inf = true from rfl]
        simp only [if_true]
        refine ⟨by trivial, .fin 100000, rfl, fun hc => absurd hc hmt,
          fun _ => ⟨100000, rfl, by norm_num⟩, fun _ => by simp, fun _ => by simp⟩
      | ninf =>
        rw [show PyF.lt .ninf (.fin 0) = true from rfl]
        simp only [if_true]
        refine ⟨by trivial, .fin 0, rfl, fun hc => absurd hc hmt,
          fun _ => ⟨0, rfl, by norm_num⟩, fun _ => by simp, fun _ => by simp⟩
      | fin q =>
        by_cases h1 : q < 0
        · rw [show PyF.lt (.fin q) (.fin 0) = true from by simp [PyF.lt, h1]]
          simp only [if_true]
          refine ⟨by trivial, .fin 0, rfl, fun hc => absurd hc hmt,
            fun _ => ⟨0, rfl, by norm_num⟩,
            fun _ => by simp [Ne.symm (ne_of_lt h1)], fun _ => by simp⟩
        · by_cases h2 : (100000 : ℚ) < q
          · rw [show PyF.lt (.fin q) (.fin 0) = false from by simp [PyF.lt, h1]]
            simp only [Bool.false_eq_true, if_false]
            rw [show PyF.lt (.fin 100000) (.fin q) = true from by simp [PyF.lt, h2]]
            simp only [if_true]
            refine ⟨by trivial, .fin 100000, rfl, fun hc => absurd hc hmt,
              fun _ => ⟨100000, rfl, by norm_num⟩,
              fun _ => by simp [ne_of_lt h2], fun _ => by simp⟩
          · rw [show PyF.lt (.fin q) (.fin 0) = false from by simp [PyF.lt, h1]]
            simp only [Bool.false_eq_true, if_false]
            rw [show PyF.lt (.fin 100000) (.fin q) = false from by simp [PyF.lt, h2]]
            simp only [Bool.false_eq_true, if_false]
            refine ⟨by trivial, .fin q, rfl, fun hc => absurd hc hmt,
              fun _ => ⟨q, rfl, not_lt.mp h1, not_lt.mp h2⟩, by simp⟩
    · rw [if_neg hmt2]
      refine ⟨by trivial, x, rfl, fun hc => absurd hc hmt, fun hc => absurd hc hmt2,
        by simp⟩

/-- Witness for C8 (amended): the empty kill-switch config blocks
nothing, and an out-of-range finite churn prediction of 5/2 is clipped
within bounds with a note. -/
theorem c8_prediction_bounds_witness :
    (validate_prediction { kill_switches := [], activation_history := [] }
      (.fin (5/2)) "churn").1 = true ∧
    ∃ v, (validate_prediction { kill_switches := [], activation_history := [] }
        (.fin (5/2)) "churn").2.1 = some v ∧
      ("churn" = "churn" → ∃ q : ℚ, v = .fin q ∧ 0 ≤ q ∧ q ≤ 1) ∧
      ("churn" = "clv" → ∃ q : ℚ, v = .fin q ∧ 0 ≤ q ∧ q ≤ 100000) ∧
      ((validate_prediction { kill_switches := [], activation_history := [] }
        (.fin (5/2)) "churn").2.2 ≠ none ↔ v ≠ .fin (5/2)) :=
  c8_prediction_bounds { kill_switches := [], activation_history := [] }
    (.fin (5/2)) "churn" rfl (by simp)

/-- C5 counterexample: a champion whose primary CLV metric (RMSE) is
exactly zero with a positive-scored challenger is NOT promoted — the CLV
trainer and promotion policy reject with insufficient improvement,
contradicting the claim that such a challenger is always promoted. -/
theorem c5_counterexample :
    (clv_train_promotes
      (some { model_name := "clv_two_stage", version := 1,
              metrics := [("rmse", .num (.fin 0)), ("mae", .num (.fin 1)),
                          ("r2", .num (.fin (1/2)))] })
      [("rmse", .num (.fin 5)), ("mae", .num (.fin 1)),
       ("r2", .num (.fin (1/2)))]).1 = false ∧
    (evaluate_clv_promotion defaultPolicy
      [("rmse", .num (.fin 5)), ("mae", .num (.fin 1)), ("r2", .num (.fin (1/2)))]
      [("rmse", .num (.fin 0)), ("mae", .num (.fin 1)), ("r2", .num (.fin (1/2)))]
      none).1 = false := by
  constructor
  · norm_num [clv_train_promotes, evaluate_clv_promotion, clvTable, mlookup,
      getNumD, PyF.lt]
  · norm_num [evaluate_clv_promotion, defaultPolicy, clvTable, mlookup, getNumD, PyF.lt]

/-- C5 (amended): with no champion record, every trainer always promotes
the challenger; with a champion whose primary metric is exactly zero and
a positive challenger score, the churn and segmentation trainers promote,
but the CLV promotion policy rejects the challenger because a zero
champion RMSE yields a computed improvement of zero. -/
theorem c5_no_effective_champion :
    (∀ m : Metrics, churn_train_promotes none m = some true) ∧
    (∀ m : Metrics, clv_train_promotes none m = (true, .initialChampion)) ∧
    (∀ m : Metrics, segmentation_train_promotes none m = some true) ∧
    (∀ (chall : Metrics) (champ : Champion) (q : ℚ), 0 < q →
      getNum chall "pr_auc" = some (.fin q) →
      getNum champ.metrics "pr_auc" = some (.fin 0) →
      churn_train_promotes (some champ) chall = some true) ∧
    (∀ (chall : Metrics) (champ : Champion) (q : ℚ), 0 < q →
      getNum chall "silhouette" = some (.fin q) →
      getNum champ.metrics "silhouette" = some (.fin 0) →
      segmentation_train_promotes (some champ) chall = some true) ∧
    (∀ (challenger champM : Metrics),
      getNumD (clvTable champM) "rmse" .inf = .fin 0 →
      (evaluate_clv_promotion defaultPolicy challenger champM none).1 = false) := by
  refine ⟨fun m => rfl, fun m => rfl, fun m => rfl, ?_, ?_, ?_⟩
  · intro chall champ q hq h1 h2
    have hstep : churn_train_promotes (some champ) chall =
        better_churn chall champ.metrics := rfl
    rw [hstep]
    unfold better_churn
    rw [h1, h2]
    simp [PyF.lt, hq]
  · intro chall champ q hq h1 h2
    have hstep : segmentation_train_promotes (some champ) chall =
        better_segmentation chall champ.metrics := rfl
    rw [hstep]
    unfold better_segmentation
    rw [h1, h2]
    simp [PyF.lt, hq]
  · intro challenger champM h
    unfold evaluate_clv_promotion
    simp only [h, defaultPolicy]
    norm_num [PyF.lt]

/-- Witness for C5 (amended): concrete zero-metric champions for each
family. -/
theorem c5_no_effective_champion_witness :
    churn_train_promotes
      (some { model_name := "churn_logistic", version := 2,
              metrics := [("pr_auc", MVal.num (.fin 0))] })
      [("pr_auc", MVal.num (.fin (1/2)))] = some true ∧
    segmentation_train_promotes
      (some { model_name := "customer_segmentation", version := 2,
              metrics := [("silhouette", MVal.num (.fin 0))] })
      [("silhouette", MVal.num (.fin (1/2)))] = some true ∧
    (evaluate_clv_promotion defaultPolicy [("rmse", MVal.num (.fin 5))]
      [("rmse", MVal.num (.fin 0))] none).1 = false := by
  refine ⟨?_, ?_, ?_⟩
  · exact c5_no_effective_champion.2.2.2.1 _
      { model_name := "churn_logistic", version := 2,
        metrics := [("pr_auc", MVal.num (.fin 0))] }
      (1/2) (by norm_num) rfl rfl
  · exact c5_no_effective_champion.2.2.2.2.1 _
      { model_name := "customer_segmentation", version := 2,
        metrics := [("silhouette", MVal.num (.fin 0))] }
      (1/2) (by norm_num) rfl rfl
  · exact c5_no_effective_champion.2.2.2.2.2
      [("rmse", MVal.num (.fin 5))] [("rmse", MVal.num (.fin 0))] rfl

lemma is_blocked_iff (cfg : KillSwitchConfig) (scope target : String) :
    is_blocked cfg scope target = true ↔
      ∃ p ∈ cfg.kill_switches,
        p.2.status = "active" ∧ p.2.scope = scope ∧ p.2.target = target := by
  unfold is_blocked
  rw [List.any_eq_true]
  constructor
  · rintro ⟨p, hp, hcond⟩
    simp only [Bool.and_eq_true, decide_eq_true_eq] at hcond
    exact ⟨p, hp, hcond.1.1, hcond.1.2, hcond.2⟩
  · rintro ⟨p, hp, h1, h2, h3⟩
    exact ⟨p, hp, by simp [h1, h2, h3]⟩

lemma mem_dictSet_new (d : List (String × KillSwitch)) (k : String) (v : KillSwitch) :
    (k, v) ∈ dictSet d k v := by
  unfold dictSet
  split_ifs with h
  · rw [List.any_eq_true] at h
    obtain ⟨p, hp, hpk⟩ := h
    rw [List.mem_map]
    refine ⟨p, hp, ?_⟩
    rw [decide_eq_true_eq] at hpk
    simp [hpk]
  · exact List.mem_append_right _ (List.mem_singleton.mpr rfl)

lemma mem_dictSet_elim (d : List (String × KillSwitch)) (k : String) (v : KillSwitch) :
    ∀ p ∈ dictSet d k v, p = (k, v) ∨ (p ∈ d ∧ p.1 ≠ k) := by
  unfold dictSet
  split_ifs with h
  · intro p hp
    rw [List.mem_map] at hp
    obtain ⟨q, hq, hqe⟩ := hp
    by_cases hk : q.1 = k
    · left
      rw [← hqe]
      simp [hk]
    · right
      rw [if_neg hk] at hqe
      exact ⟨hqe ▸ hq, hqe ▸ hk⟩
  · intro p hp
    rcases List.mem_append.mp hp with h1 | h2
    · by_cases hk : p.1 = k
      · exfalso
        rw [List.any_eq_true] at h
        exact h ⟨p, h1, by simp [hk]⟩
      · exact Or.inr ⟨h1, hk⟩
    · left
      simpa using h2

lemma find?_dictSet (d : List (String × KillSwitch)) (k : String) (v : KillSwitch) :
    (dictSet d k v).find? (fun p => p.1 = k) = some (k, v) := by
  unfold dictSet
  split_ifs with h
  · induction d with
    | nil => simp at h
    | cons q d ih =>
      by_cases hk : q.1 = k
      · simp only [List.map_cons, if_pos hk, List.find?_cons]
        simp
      · simp only [List.map_cons, if_neg hk, List.find?_cons]
        rw [show decide (q.1 = k) = false from by simp [hk]]
        apply ih
        rw [List.any_eq_true] at h ⊢
        obtain ⟨p, hp, hpk⟩ := h
        rcases List.mem_cons.mp hp with h1 | h2
        · exfalso
          rw [decide_eq_true_eq] at hpk
          exact hk (h1 ▸ hpk)
        · exact ⟨p, h2, hpk⟩
  · induction d with
    | nil => simp
    | cons q d ih =>
      have hk : ¬ q.1 = k := by
        intro hq
        rw [List.any_eq_true] at h
        exact h ⟨q, List.mem_cons_self q d, by simp [hq]⟩
      simp only [List.cons_append, List.find?_cons]
      rw [show decide (q.1 = k) = false from by simp [hk]]
      apply ih
      intro hc
      rw [List.any_eq_true] at h hc
      obtain ⟨p, hp, hpk⟩ := hc
      exact h ⟨p, List.mem_cons_of_mem q hp, hpk⟩

/-- C7: `is_blocked(scope, target)` is true exactly when some stored kill
switch is active and matches both scope and target; immediately after
`activate_kill_switch(model_type, "churn")` the churn family is blocked
and `validate_prediction` reports the prediction unavailable as
`(False, None, note)`, and this lasts until the switch is deactivated
(deactivating it unblocks the family when no other matching active switch
exists). -/
theorem c7_kill_switch_blocking (cfg : KillSwitchConfig) (scope target : String) :
    (is_blocked cfg scope target = true ↔
      ∃ p ∈ cfg.kill_switches,
        p.2.status = "active" ∧ p.2.scope = scope ∧ p.2.target = target) ∧
    (∀ reason actor now_local now_utc,
      is_blocked (activate_kill_switch cfg "model_type" "churn" reason actor
        now_local now_utc).1 "model_type" "churn" = true ∧
      (∀ x : PyF, validate_prediction
          (activate_kill_switch cfg "model_type" "churn" reason actor
            now_local now_utc).1 x "churn"
        = (false, none, some (.killSwitched "churn"))) ∧
      ((∀ p ∈ cfg.kill_switches,
          ¬(p.2.status = "active" ∧ p.2.scope = "model_type" ∧
            p.2.target = "churn")) →
        ∀ actor2 now_utc2,
          (deactivate_kill_switch
            (activate_kill_switch cfg "model_type" "churn" reason actor
              now_local now_utc).1
            (activate_kill_switch cfg "model_type" "churn" reason actor
              now_local now_utc).2 actor2 now_utc2).2 = true ∧
          is_blocked
            (deactivate_kill_switch
              (activate_kill_switch cfg "model_type" "churn" reason actor
                now_local now_utc).1
              (activate_kill_switch cfg "model_type" "churn" reason actor
                now_local now_utc).2 actor2 now_utc2).1
            "model_type" "churn" = false)) := by
  refine ⟨is_blocked_iff cfg scope target, ?_⟩
  intro reason actor now_local now_utc
  have hid : (activate_kill_switch cfg "model_type" "churn" reason actor
      now_local now_utc).2 = "model_type" ++ "_" ++ "churn" ++ "_" ++ now_local := rfl
  have hks : (activate_kill_switch cfg "model_type" "churn" reason actor
      now_local now_utc).1.kill_switches =
    dictSet cfg.kill_switches ("model_type" ++ "_" ++ "churn" ++ "_" ++ now_local)
      { id := "model_type" ++ "_" ++ "churn" ++ "_" ++ now_local
        scope := "model_type", target := "churn", status := "active"
        reason := reason, activated_by := actor, activated_at := now_utc
        deactivated_at := none } := rfl
  have hblocked : is_blocked (activate_kill_switch cfg "model_type" "churn" reason
      actor now_local now_utc).1 "model_type" "churn" = true := by
    rw [is_blocked_iff, hks]
    exact ⟨_, mem_dictSet_new _ _ _, rfl, rfl, rfl⟩
  refine ⟨hblocked, ?_, ?_⟩
  · intro x
    unfold validate_prediction
    rw [hblocked]
    simp
  · intro hclean actor2 now_utc2
    have hfind : (deactivate_kill_switch
        (activate_kill_switch cfg "model_type" "churn" reason actor
          now_local now_utc).1
        (activate_kill_switch cfg "model_type" "churn" reason actor
          now_local now_utc).2 actor2 now_utc2) =
      ({ kill_switches :=
          (activate_kill_switch cfg "model_type" "churn" reason actor
            now_local now_utc).1.kill_switches.map
            (fun p =>
              if p.1 = (activate_kill_switch cfg "model_type" "churn" reason actor
                  now_local now_utc).2 then
                (p.1, { p.2 with status := "deactivated",
                                 deactivated_at := some now_utc2 })
              else p)
         activation_history :=
          (activate_kill_switch cfg "model_type" "churn" reason actor
            now_local now_utc).1.activation_history ++
          [{ kill_switch_id := (activate_kill_switch cfg "model_type" "churn"
              reason actor now_local now_utc).2, action := "deactivated"
             timestamp := now_utc2, user := actor2 }] }, true) := by
      unfold deactivate_kill_switch
      rw [hks, hid, find?_dictSet]
      simp
    rw [hfind]
    refine ⟨rfl, ?_⟩
    rw [← Bool.not_eq_true, is_blocked_iff]
    rintro ⟨p, hp, hact, hsc, htg⟩
    simp only [hks, hid, List.mem_map] at hp
    obtain ⟨q, hq, hqe⟩ := hp
    rcases mem_dictSet_elim _ _ _ q hq with hnew | ⟨hold, hkne⟩
    · rw [hnew] at hqe
      rw [if_pos rfl] at hqe
      rw [← hqe] at hact
      simp at hact
    · rw [if_neg hkne] at hqe
      rw [← hqe] at hact hsc htg
      exact hclean q hold ⟨hact, hsc, htg⟩

/-- Witness for C7: activating on the empty config blocks churn, the
prediction is reported unavailable, and deactivation unblocks. -/
theorem c7_kill_switch_blocking_witness :
    is_blocked (activate_kill_switch
      { kill_switches := [], activation_history := [] }
      "model_type" "churn" "bad model" "ops" "t1" "t2").1 "model_type" "churn" = true ∧
    validate_prediction (activate_kill_switch
      { kill_switches := [], activation_history := [] }
      "model_type" "churn" "bad model" "ops" "t1" "t2").1 (.fin (1/2)) "churn"
      = (false, none, some (.killSwitched "churn")) ∧
    (deactivate_kill_switch
      (activate_kill_switch { kill_switches := [], activation_history := [] }
        "model_type" "churn" "bad model" "ops" "t1" "t2").1
      (activate_kill_switch { kill_switches := [], activation_history := [] }
        "model_type" "churn" "bad model" "ops" "t1" "t2").2 "ops" "t3").2 = true ∧
    is_blocked (deactivate_kill_switch
      (activate_kill_switch { kill_switches := [], activation_history := [] }
        "model_type" "churn" "bad model" "ops" "t1" "t2").1
      (activate_kill_switch { kill_switches := [], activation_history := [] }
        "model_type" "churn" "bad model" "ops" "t1" "t2").2 "ops" "t3").1
      "model_type" "churn" = false := by
  have h := (c7_kill_switch_blocking
    { kill_switches := [], activation_history := [] } "model_type" "churn").2
    "bad model" "ops" "t1" "t2"
  have hd := h.2.2 (by simp) "ops" "t3"
  exact ⟨h.1, h.2.1 (.fin (1/2)), hd.1, hd.2⟩

lemma estep_eq_ok {A B : Type} {x : Except String A} {f : A → Except String B}
    {b : B} (h : estep x f = .ok b) : ∃ a, x = .ok a ∧ f a = .ok b := by
  cases x with
  | error e => simp [estep] at h
  | ok a => exact ⟨a, rfl, h⟩

/-- C4: the orchestrator writes the pipeline state file only after every
step completed successfully — a successful run persists exactly the new
state (fingerprints, drift flags, timestamp) and implies every
unconditional step returned without raising, while any raised exception
stops the run and leaves the previously persisted state unchanged. -/
theorem c4_state_persistence (file : Option NewState) (s : RunSteps) :
    (∀ e, runPipeline (load_state file) s = .error e →
      run_and_persist file s = file) ∧
    (∀ st, runPipeline (load_state file) s = .ok st →
      run_and_persist file s = some st ∧
      s.raw_fp = .ok st.raw_data_fingerprint ∧
      (∃ b, s.drift_churn = .ok b) ∧ (∃ b, s.drift_clv = .ok b) ∧
      (∃ b, s.drift_seg = .ok b) ∧
      s.inference = .ok () ∧ s.snapshot = .ok () ∧ s.outputs = .ok () ∧
      st.outputs_built = true ∧ st.last_run = s.now) := by
  constructor
  · intro e he
    unfold run_and_persist
    rw [he]
  · intro st hok
    have hpersist : run_and_persist file s = some st := by
      unfold run_and_persist
      rw [hok]
    refine ⟨hpersist, ?_⟩
    unfold runPipeline at hok
    obtain ⟨raw_fp, h1, hok⟩ := estep_eq_ok hok
    obtain ⟨feature_fp, _, hok⟩ := estep_eq_ok hok
    obtain ⟨churn_severe, h3, hok⟩ := estep_eq_ok hok
    obtain ⟨clv_severe, h4, hok⟩ := estep_eq_ok hok
    obtain ⟨seg_severe, h5, hok⟩ := estep_eq_ok hok
    obtain ⟨u6, _, hok⟩ := estep_eq_ok hok
    obtain ⟨u7, h7, hok⟩ := estep_eq_ok hok
    obtain ⟨u8, h8, hok⟩ := estep_eq_ok hok
    obtain ⟨u9, h9, hok⟩ := estep_eq_ok hok
    cases u7
    cases u8
    cases u9
    rw [Except.ok.injEq] at hok
    subst hok
    exact ⟨h1, ⟨churn_severe, h3⟩, ⟨clv_severe, h4⟩, ⟨seg_severe, h5⟩,
      h7, h8, h9, rfl, rfl⟩

/-- Witness for C4: a run whose snapshot step raises leaves a missing
state file untouched. -/
theorem c4_state_persistence_witness :
    run_and_persist none
      { raw_fp := .ok "r", ingest_and_features := .ok "f"
        drift_churn := .ok false, drift_clv := .ok false
        drift_seg := .ok false, train := .ok (), inference := .ok ()
        snapshot := .error "disk full", outputs := .ok (), now := "t" } = none :=
  (c4_state_persistence none
    { raw_fp := .ok "r", ingest_and_features := .ok "f"
      drift_churn := .ok false, drift_clv := .ok false
      drift_seg := .ok false, train := .ok (), inference := .ok ()
      snapshot := .error "disk full", outputs := .ok (), now := "t" }).1
    "disk full" rfl

/-- C1: with no baseline metrics, `evaluate_churn_promotion` (default
thresholds) promotes exactly when the relative PR-AUC improvement over
the champion is at least 1% and, when the champion ROC-AUC is positive,
the relative ROC-AUC change is no worse than -5%; champion PR-AUC 0.70 vs
challenger 0.705 is rejected with an insufficient-improvement reason, and
0.70/0.80 vs 0.72/0.81 is accepted with a reason carrying the 1/35
(≈2.86%) improvement. -/
theorem c1_churn_promotion (p c r q : ℚ) (hp : 0 < p) :
    ((evaluate_churn_promotion defaultPolicy
        [("pr_auc", .num (.fin c)), ("roc_auc", .num (.fin q))]
        [("pr_auc", .num (.fin p)), ("roc_auc", .num (.fin r))] none).1 = true ↔
      ((1/100 : ℚ) ≤ (c - p)/p ∧ (0 < r → -(5/100 : ℚ) ≤ (q - r)/r))) ∧
    evaluate_churn_promotion defaultPolicy
      [("pr_auc", MVal.num (.fin (705/1000)))] [("pr_auc", MVal.num (.fin (7/10)))]
      none
      = (false, .insufficientPR (.fin (1/140)) (.fin (1/100))) ∧
    evaluate_churn_promotion defaultPolicy
      [("pr_auc", MVal.num (.fin (72/100))), ("roc_auc", MVal.num (.fin (81/100)))]
      [("pr_auc", MVal.num (.fin (7/10))), ("roc_auc", MVal.num (.fin (8/10)))] none
      = (true, .promotedChurn (.fin (1/35)) (.fin (7/10)) (.fin (72/100))) := by
  refine ⟨?_, ?_, ?_⟩
  · unfold evaluate_churn_promotion defaultPolicy
    dsimp only
    rw [show getNumD [("pr_auc", MVal.num (.fin c)), ("roc_auc", MVal.num (.fin q))]
        "pr_auc" (.fin 0) = .fin c from rfl,
      show getNumD [("pr_auc", MVal.num (.fin p)), ("roc_auc", MVal.num (.fin r))]
        "pr_auc" (.fin 0) = .fin p from rfl,
      show getNumD [("pr_auc", MVal.num (.fin c)), ("roc_auc", MVal.num (.fin q))]
        "roc_auc" (.fin 0) = .fin q from rfl,
      show getNumD [("pr_auc", MVal.num (.fin p)), ("roc_auc", MVal.num (.fin r))]
        "roc_auc" (.fin 0) = .fin r from rfl]
    rw [show PyF.lt (.fin 0) (.fin p) = true from decide_eq_true hp]
    simp only [if_true]
    rw [show PyF.sub (.fin c) (.fin p) = .fin (c - p) from rfl]
    rw [show PyF.div (.fin (c - p)) (.fin p) = .fin ((c - p)/p) from by
      simp [PyF.div, hp.ne']]
    by_cases hA : (c - p)/p < 1/100
    · rw [show PyF.lt (.fin ((c - p)/p)) (.fin (1/100)) = true from decide_eq_true hA]
      simp only [if_true]
      constructor
      · intro hcontra
        simp at hcontra
      · rintro ⟨hge, _⟩
        exact absurd hge (not_le.mpr hA)
    · rw [show PyF.lt (.fin ((c - p)/p)) (.fin (1/100)) = false from
        decide_eq_false hA]
      simp only [Bool.false_eq_true, if_false]
      by_cases hr : 0 < r
      · rw [show PyF.lt (.fin 0) (.fin r) = true from decide_eq_true hr]
        simp only [if_true]
        rw [show PyF.sub (.fin q) (.fin r) = .fin (q - r) from rfl]
        rw [show PyF.div (.fin (q - r)) (.fin r) = .fin ((q - r)/r) from by
          simp [PyF.div, hr.ne']]
        by_cases hB : (q - r)/r < -(5/100 : ℚ)
        · rw [show PyF.lt (.fin ((q - r)/r)) (.fin (-(5/100))) = true from
            decide_eq_true hB]
          simp only [if_true]
          constructor
          · intro hcontra
            simp at hcontra
          · rintro ⟨_, hroc⟩
            exact absurd (hroc hr) (not_le.mpr hB)
        · rw [show PyF.lt (.fin ((q - r)/r)) (.fin (-(5/100))) = false from
            decide_eq_false hB]
          simp only [Bool.false_eq_true, if_false]
          constructor
          · intro _
            exact ⟨not_lt.mp hA, fun _ => not_lt.mp hB⟩
          · intro _
            trivial
      · rw [show PyF.lt (.fin 0) (.fin r) = false from decide_eq_false hr]
        simp only [Bool.false_eq_true, if_false]
        constructor
        · intro _
          exact ⟨not_lt.mp hA, fun h0r => absurd h0r hr⟩
        · intro _
          trivial
  · unfold evaluate_churn_promotion defaultPolicy
    dsimp only
    rw [show getNumD [("pr_auc", MVal.num (.fin (705/1000)))] "pr_auc" (.fin 0)
        = .fin (705/1000) from rfl,
      show getNumD [("pr_auc", MVal.num (.fin (7/10)))] "pr_auc" (.fin 0)
        = .fin (7/10) from rfl]
    rw [show PyF.lt (.fin 0) (.fin (7/10)) = true from by norm_num [PyF.lt]]
    simp only [if_true]
    rw [show PyF.sub (.fin (705/1000)) (.fin (7/10))
        = .fin (705/1000 - 7/10) from rfl]
    rw [show PyF.div (.fin (705/1000 - 7/10)) (.fin (7/10))
        = .fin ((705/1000 - 7/10)/(7/10)) from by norm_num [PyF.div]]
    rw [show PyF.lt (.fin ((705/1000 - 7/10)/(7/10))) (.fin (1/100)) = true from by
      norm_num [PyF.lt]]
    simp only [if_true]
    norm_num [Prod.ext_iff, Reason.insufficientPR.injEq, PyF.fin.injEq]
  · unfold evaluate_churn_promotion defaultPolicy
    dsimp only
    rw [show getNumD [("pr_auc", MVal.num (.fin (72/100))),
          ("roc_auc", MVal.num (.fin (81/100)))] "pr_auc" (.fin 0)
        = .fin (72/100) from rfl,
      show getNumD [("pr_auc", MVal.num (.fin (7/10))),
          ("roc_auc", MVal.num (.fin (8/10)))] "pr_auc" (.fin 0)
        = .fin (7/10) from rfl,
      show getNumD [("pr_auc", MVal.num (.fin (72/100))),
          ("roc_auc", MVal.num (.fin (81/100)))] "roc_auc" (.fin 0)
        = .fin (81/100) from rfl,
      show getNumD [("pr_auc", MVal.num (.fin (7/10))),
          ("roc_auc", MVal.num (.fin (8/10)))] "roc_auc" (.fin 0)
        = .fin (8/10) from rfl]
    rw [show PyF.lt (.fin 0) (.fin (7/10)) = true from by norm_num [PyF.lt]]
    simp only [if_true]
    rw [show PyF.sub (.fin (72/100)) (.fin (7/10)) = .fin (72/100 - 7/10) from rfl]
    rw [show PyF.div (.fin (72/100 - 7/10)) (.fin (7/10))
        = .fin ((72/100 - 7/10)/(7/10)) from by norm_num [PyF.div]]
    rw [show PyF.lt (.fin ((72/100 - 7/10)/(7/10))) (.fin (1/100)) = false from by
      norm_num [PyF.lt]]
    simp only [Bool.false_eq_true, if_false]
    rw [show PyF.lt (.fin 0) (.fin (8/10)) = true from by norm_num [PyF.lt]]
    simp only [if_true]
    rw [show PyF.sub (.fin (81/100)) (.fin (8/10)) = .fin (81/100 - 8/10) from rfl]
    rw [show PyF.div (.fin (81/100 - 8/10)) (.fin (8/10))
        = .fin ((81/100 - 8/10)/(8/10)) from by norm_num [PyF.div]]
    rw [show PyF.lt (.fin ((81/100 - 8/10)/(8/10))) (.fin (-(5/100))) = false from by
      norm_num [PyF.lt]]
    simp only [Bool.false_eq_true, if_false]
    norm_num [Prod.ext_iff, Reason.promotedChurn.injEq, PyF.fin.injEq]

/-- Witness for C1: the promotion rule instantiated at the accepted
concrete pair of metric sets (champion PR-AUC 0.70, ROC-AUC 0.80). -/
theorem c1_churn_promotion_witness :
    (evaluate_churn_promotion defaultPolicy
        [("pr_auc", .num (.fin (72/100))), ("roc_auc", .num (.fin (81/100)))]
        [("pr_auc", .num (.fin (7/10))), ("roc_auc", .num (.fin (8/10)))]
        none).1 = true ↔
      ((1/100 : ℚ) ≤ (72/100 - 7/10)/(7/10) ∧
        (0 < (8/10 : ℚ) → -(5/100 : ℚ) ≤ (81/100 - 8/10)/(8/10))) :=
  (c1_churn_promotion (7/10) (72/100) (8/10) (81/100) (by norm_num)).1
